import Mathlib

/-!
Verification development for the autonomous-software-studio orchestration
engine (Python sources under src/autonomous_software_studio/src/orchestration).

The Python modules are shallowly embedded:

* `orchestration/state.py` — the LangGraph `AgentState` TypedDict becomes the
  record `AgentState` below.  The TypedDict is declared with `total=False`, and
  every read in the sources goes through `dict.get` with a default, so each
  field is an `Option` and the `.get` defaults are applied with `Option.getD`
  at exactly the call sites where the Python code applies them.  A key that is
  absent and a key stored as Python `None` behave identically under `dict.get`,
  so both are modelled as `none`.
* Effects are made explicit: `datetime.now()` and `uuid.uuid4()` become
  parameters (`now`, `sessionId`), exceptions become `Except`, and SQLite
  tables become Lean lists of typed rows (the composite primary keys are
  modelled by the lookup and upsert functions on those lists).
* `json.dumps` / `json.loads` (the text layer) are modelled as the identity
  between a document and its parse tree `Json`; the Python code never relies on
  the concrete text, only on the parsed values.  ISO-8601 timestamps compare
  lexicographically in the sources; they are modelled as `Nat` instants where
  only their ordering matters.
-/

/-- A JSON document as `json.loads` returns it: objects are Python dicts
(association lists with distinct keys), arrays are lists, numbers in the
session payloads are integers. -/
inductive Json where
  | null
  | bool (b : Bool)
  | num (n : Int)
  | str (s : String)
  | arr (items : List Json)
  | obj (fields : List (String × Json))

/-- Key lookup in a JSON object / Python dict (first binding wins; dict keys
are distinct by construction). -/
def dictGet (fields : List (String × Json)) (key : String) : Option Json :=
  match fields with
  | [] => none
  | (k, v) :: rest => if k = key then some v else dictGet rest key

/-- Python `key in dict`. -/
def hasKey (fields : List (String × Json)) (key : String) : Bool :=
  (dictGet fields key).isSome

/-- Python truthiness of a JSON-shaped value, as used by
`1 if state.get("qa_passed") else 0` in `SessionStore.save_session`. -/
def jsonTruthy : Json → Bool
  | Json.null => false
  | Json.bool b => b
  | Json.num n => n ≠ 0
  | Json.str s => s ≠ ""
  | Json.arr items => ¬ items.isEmpty
  | Json.obj fields => ¬ fields.isEmpty

/-- Python `d.get(key, default)` for a string-valued entry.  The session
dictionaries only ever hold strings under the keys read this way. -/
def getStrD (fields : List (String × Json)) (key : String) (dflt : String) : String :=
  match dictGet fields key with
  | some (Json.str s) => s
  | _ => dflt

/-- Python `d.get(key, default)` for an integer-valued entry. -/
def getIntD (fields : List (String × Json)) (key : String) (dflt : Int) : Int :=
  match dictGet fields key with
  | some (Json.num n) => n
  | _ => dflt

/-- `state.ExecutionLogEntry`: log entry for agent execution.  The float
`duration_seconds` is carried opaquely (never computed on) and is modelled at
rational precision. -/
structure ExecutionLogEntry where
  agent : String
  timestamp : String
  status : String
  duration_seconds : Option ℚ
  tokens_input : Option Int
  tokens_output : Option Int
  error : Option String

/-- `state.AgentState`: the LangGraph state schema (TypedDict, `total=False`).
Every field is optional; reads go through `dict.get` and apply defaults at the
call sites, exactly as the Python code does. -/
structure AgentState where
  user_mission : Option String
  path_prd : Option String
  path_tech_spec : Option String
  path_scaffold_script : Option String
  path_bug_report : Option String
  current_phase : Option String
  qa_passed : Option Bool
  iteration_count : Option Int
  max_iterations : Option Int
  architectural_feedback : Option (List String)
  prd_feedback : Option (List String)
  session_id : Option String
  timestamp : Option String
  project_name : Option String
  work_dir : Option String
  execution_log : Option (List ExecutionLogEntry)
  decision : Option String
  reject_phase : Option String
  files_created : Option (List String)
  errors : Option (List String)

/-- `state.VALID_TRANSITIONS`: valid phase transitions
(from_phase -> allowed_to_phases).  `complete` and `failed` are terminal. -/
def VALID_TRANSITIONS : List (String × List String) :=
  [("pm", ["arch", "failed"]),
   ("arch", ["human_gate", "failed"]),
   ("human_gate", ["eng", "arch", "pm", "failed"]),
   ("eng", ["qa", "failed"]),
   ("qa", ["complete", "eng", "human_help", "failed"]),
   ("human_help", ["eng", "arch", "pm", "complete", "failed"]),
   ("complete", []),
   ("failed", [])]

/-- Lookup in the transition table (Python `from_phase not in VALID_TRANSITIONS`
/ `VALID_TRANSITIONS[from_phase]`). -/
def transitionsOf (fromPhase : String) : Option (List String) :=
  match VALID_TRANSITIONS.find? (fun p => p.fst = fromPhase) with
  | some p => some p.snd
  | none => none

/-- Literal membership of a (from, to) pair in the transition table, as the
specification words it: the pair itself, no case folding.  Used to compare the
code against the spec sentence. -/
def inTransitionTable (fromPhase toPhase : String) : Bool :=
  match transitionsOf fromPhase with
  | some allowed => allowed.contains toPhase
  | none => false

/-- `state.PHASE_ARTIFACTS`: required artifacts for each phase. -/
def PHASE_ARTIFACTS : List (String × List String) :=
  [("pm", []),
   ("arch", ["path_prd"]),
   ("human_gate", ["path_prd", "path_tech_spec"]),
   ("eng", ["path_prd", "path_tech_spec"]),
   ("qa", ["path_prd", "path_tech_spec"]),
   ("complete", ["path_prd", "path_tech_spec"])]

/-- Python `state.get(artifact)` for the artifact-path keys listed in
`PHASE_ARTIFACTS`. -/
def getArtifact (s : AgentState) (artifact : String) : Option String :=
  if artifact = "path_prd" then s.path_prd
  else if artifact = "path_tech_spec" then s.path_tech_spec
  else if artifact = "path_scaffold_script" then s.path_scaffold_script
  else if artifact = "path_bug_report" then s.path_bug_report
  else none

/-- Python `str.lower()` on the ASCII phase names (character-wise
lower-casing). -/
def strToLower (s : String) : String :=
  String.mk (s.data.map Char.toLower)

/-- `StateValidator.validate_transition`: both phases are lower-cased, then the
table is consulted; an unknown from-phase yields `false`. -/
def validate_transition (fromPhase toPhase : String) : Bool :=
  inTransitionTable (strToLower fromPhase) (strToLower toPhase)

/-- `StateValidator.validate_artifacts`: the missing artifacts required for the
current phase (default phase `"pm"`, unknown phases require nothing). -/
def validate_artifacts (s : AgentState) : List String :=
  let current_phase := strToLower (s.current_phase.getD "pm")
  let required :=
    match PHASE_ARTIFACTS.find? (fun p => p.fst = current_phase) with
    | some p => p.snd
    | none => []
  required.filter (fun artifact => (getArtifact s artifact).isNone)

/-- The set of valid phases used by `validate_state`:
`set(VALID_TRANSITIONS.keys()) | \x7b"complete", "failed"\x7d`. -/
def validPhases : List String :=
  VALID_TRANSITIONS.map (fun p => p.fst) ++ ["complete", "failed"]

/-- `StateValidator.validate_state`: comprehensive validation returning a list
of error messages (empty when valid).  Message texts follow the sources, with
quote characters left out. -/
def validate_state (s : AgentState) : List String :=
  let e1 := if s.user_mission.getD "" = ""
    then ["user_mission is required and cannot be empty"] else []
  let current_phase := s.current_phase.getD "pm"
  let e2 := if validPhases.contains current_phase then []
    else ["Invalid current_phase: " ++ current_phase]
  let iteration_count := s.iteration_count.getD 0
  let max_iterations := s.max_iterations.getD 5
  let e3 := if iteration_count < 0 then ["iteration_count cannot be negative"] else []
  let e4 := if max_iterations < 1 then ["max_iterations must be at least 1"] else []
  let missing := validate_artifacts s
  let e5 := if missing.isEmpty then []
    else ["Missing required artifacts for phase " ++ current_phase]
  e1 ++ e2 ++ e3 ++ e4 ++ e5

/-- `StateManager.create_initial_state`: the initial state for a new session.
`uuid.uuid4()` and `datetime.now().isoformat()` are passed in as `sessionId`
and `now`; `work_dir` arrives already resolved to a string (the Python code
only normalises `Path` and `None` inputs to a string). -/
def create_initial_state (user_mission project_name work_dir : String)
    (max_iterations : Int) (sessionId now : String) : AgentState :=
  { user_mission := some user_mission
    path_prd := none
    path_tech_spec := none
    path_scaffold_script := none
    path_bug_report := none
    current_phase := some "pm"
    qa_passed := some false
    iteration_count := some 0
    max_iterations := some max_iterations
    architectural_feedback := some []
    prd_feedback := some []
    session_id := some sessionId
    timestamp := some now
    project_name := some project_name
    work_dir := some work_dir
    execution_log := some []
    decision := none
    reject_phase := none
    files_created := some []
    errors := some [] }

/-- `StateManager.transition_phase`: transition to a new phase.  On an invalid
transition (with validation on) Python raises `StateTransitionError`, modelled
as `Except.error`; on success `update_state(state, \x7b"current_phase":
to_phase\x7d)` refreshes the timestamp and sets the phase (the deep copies of
`update_state` are identities on immutable Lean values). -/
def transition_phase (now : String) (s : AgentState) (toPhase : String)
    (validate : Bool) : Except String AgentState :=
  let fromPhase := s.current_phase.getD "pm"
  if validate && !(validate_transition fromPhase toPhase) then
    Except.error ("Invalid transition from " ++ fromPhase ++ " to " ++ toPhase)
  else
    Except.ok { s with timestamp := some now, current_phase := some toPhase }

/-- `StateManager.increment_iteration`: new state with incremented
`iteration_count` (via `update_state`, which also refreshes the timestamp).
Defined from the sources; the workflow graph never calls it. -/
def increment_iteration (now : String) (s : AgentState) : AgentState :=
  { s with timestamp := some now,
           iteration_count := some (s.iteration_count.getD 0 + 1) }

/-- The phase carried by a `transition_phase` result (`none` when the
transition raised). -/
def phaseOfResult (r : Except String AgentState) : Option String :=
  match r with
  | Except.ok s => s.current_phase
  | Except.error _ => none

/-- `workflow.route_after_human_gate`: route after the human gate based on the
decision.  `state.get("decision")` has no default; `state.get("reject_phase",
"architect")` defaults only when the key is absent, and an explicit `None`
falls to the final else-branch — both cases produce `"architect"`, matching
the conflation of absent and `None` in the `Option` model. -/
def route_after_human_gate (s : AgentState) : String :=
  match s.decision with
  | some "APPROVE" => "engineer"
  | some "REJECT" =>
      let reject_phase := s.reject_phase.getD "architect"
      if reject_phase = "pm" then "pm"
      else if reject_phase = "architect" then "architect"
      else "architect"
  | _ => "human_gate"

/-- `workflow.route_after_qa`: route after QA based on test results. -/
def route_after_qa (s : AgentState) : String :=
  let qa_passed := s.qa_passed.getD false
  let iteration_count := s.iteration_count.getD 0
  let max_iterations := s.max_iterations.getD 5
  if qa_passed then "end"
  else if iteration_count < max_iterations then "engineer"
  else "human_help"

/-- `wrappers/state.AgentState` (imported as `WrapperAgentState` in
`workflow.py`): the Pydantic state handed to the agent wrappers.  Paths are
carried as strings. -/
structure WrapperAgentState where
  mission : String
  project_name : String
  work_dir : String
  current_phase : String
  path_prd : Option String
  path_tech_spec : Option String
  path_scaffold_script : Option String
  path_bug_report : Option String
  files_created : List String
  qa_passed : Option Bool
  errors : List String

/-- `workflow._convert_to_wrapper_state`: LangGraph state to wrapper state. -/
def convert_to_wrapper_state (s : AgentState) : WrapperAgentState :=
  { mission := s.user_mission.getD ""
    project_name := s.project_name.getD "project"
    work_dir := s.work_dir.getD "."
    current_phase := s.current_phase.getD "pm"
    path_prd := s.path_prd
    path_tech_spec := s.path_tech_spec
    path_scaffold_script := s.path_scaffold_script
    path_bug_report := s.path_bug_report
    files_created := s.files_created.getD []
    qa_passed := s.qa_passed
    errors := s.errors.getD [] }

/-- `workflow._convert_from_wrapper_state`: wrapper state back into the
LangGraph state via `update_state` (timestamp refreshed, listed fields
replaced; a path is copied back only when it is set, since `None` is falsy
and a set `Path` is truthy). -/
def convert_from_wrapper_state (now : String) (w : WrapperAgentState)
    (original : AgentState) : AgentState :=
  let base :=
    { original with
        timestamp := some now
        current_phase := some w.current_phase
        qa_passed := some (w.qa_passed.getD (original.qa_passed.getD false))
        files_created := some w.files_created
        errors := some w.errors }
  let base := match w.path_prd with
    | some p => { base with path_prd := some p }
    | none => base
  let base := match w.path_tech_spec with
    | some p => { base with path_tech_spec := some p }
    | none => base
  let base := match w.path_scaffold_script with
    | some p => { base with path_scaffold_script := some p }
    | none => base
  match w.path_bug_report with
  | some p => { base with path_bug_report := some p }
  | none => base

/-- The outcome of `agent.execute(wrapper_state)` inside a node: the returned
wrapper state, or the message of the exception the node catches.  The agents
are external subprocess-backed collaborators, so the outcome is a parameter of
the node functions. -/
inductive AgentOutcome where
  | ok (result : WrapperAgentState)
  | error (msg : String)

/-- `WorkflowNodes.engineer_node`: on success the wrapper result is merged back
and the phase is set to `"qa"`; on an exception the phase becomes `"failed"`
and the message is appended to the errors.  Context-file generation and
logging have no effect on the state and are left out. -/
def engineer_node (now : String) (outcome : AgentOutcome) (s : AgentState) :
    AgentState :=
  match outcome with
  | AgentOutcome.ok w =>
      let new_state := convert_from_wrapper_state now w s
      { new_state with timestamp := some now, current_phase := some "qa" }
  | AgentOutcome.error e =>
      { s with timestamp := some now, current_phase := some "failed",
               errors := some (s.errors.getD [] ++ [e]) }

/-- `WorkflowNodes.qa_node`: on success the wrapper result is merged back
unchanged (the agent sets `qa_passed`); on an exception the phase becomes
`"failed"`, `qa_passed` is cleared and the message is appended. -/
def qa_node (now : String) (outcome : AgentOutcome) (s : AgentState) :
    AgentState :=
  match outcome with
  | AgentOutcome.ok w => convert_from_wrapper_state now w s
  | AgentOutcome.error e =>
      { s with timestamp := some now, current_phase := some "failed",
               qa_passed := some false,
               errors := some (s.errors.getD [] ++ [e]) }

/-- One QA-failure repair cycle of the compiled graph (`engineer -> qa`, taken
when `route_after_qa` returned `"engineer"`): the engineer node runs, then the
QA node.  The tuple carries the two node timestamps and agent outcomes. -/
def CycleIO : Type := String × AgentOutcome × String × AgentOutcome

/-- A sequence of repair cycles of the compiled graph. -/
def runCycles : List CycleIO → AgentState → AgentState
  | [], s => s
  | (nowE, outE, nowQ, outQ) :: rest, s =>
      runCycles rest (qa_node nowQ outQ (engineer_node nowE outE s))

/-- `orchestrator.SessionStatus`: status of an orchestration session. -/
inductive SessionStatus where
  | pending
  | running
  | awaiting_approval
  | completed
  | failed
  | expired
deriving DecidableEq

/-- The serialised-state dictionary: `dict(state)` as held in `state_json` and
in export payloads.  Keys are distinct by construction (Python dicts). -/
def StateDict : Type := List (String × Json)

/-- `StateManager.serialize_state`: `json.dumps(dict(state), indent=2,
default=str)`.  The text layer is modelled as the identity between the
document and its parse tree, so the result is the JSON object holding the
dictionary; `default=str` never fires on the JSON-shaped session values. -/
def serialize_state (state : StateDict) : Json :=
  Json.obj state

/-- `StateManager.deserialize_state`: parse (modelled away), require a JSON
object, require the `user_mission` key, and return the dictionary
(`AgentState(**data)` is the dictionary itself).  `ValueError` becomes
`Except.error`. -/
def deserialize_state (j : Json) : Except String StateDict :=
  match j with
  | Json.obj data =>
      if hasKey data "user_mission" then Except.ok data
      else Except.error "State must contain user_mission field"
  | _ => Except.error "State must be a JSON object"

/-- One row of the `sessions` table of `orchestrator.SessionStore`. -/
structure SessionRow where
  session_id : String
  user_mission : String
  project_name : String
  status : SessionStatus
  current_phase : String
  created_at : Nat
  updated_at : Nat
  iteration_count : Int
  qa_passed : Bool
  work_dir : String
  state_json : Json

/-- `SessionStore._determine_status`: session status derived from the
current phase of a state dictionary. -/
def determine_status (state : StateDict) : SessionStatus :=
  let phase := getStrD state "current_phase" "pm"
  if phase = "complete" then SessionStatus.completed
  else if phase = "failed" then SessionStatus.failed
  else if phase = "human_gate" ∨ phase = "human_help" then
    SessionStatus.awaiting_approval
  else SessionStatus.running

/-- `SessionStore.save_session`: upsert of the metadata row (INSERT OR REPLACE
keyed by `session_id`; `COALESCE` preserves the original `created_at`).
`datetime.now()` is the `now` parameter. -/
def save_session (now : Nat) (sessionId : String) (state : StateDict)
    (tbl : List SessionRow) : List SessionRow :=
  let created_at :=
    match tbl.find? (fun r => r.session_id = sessionId) with
    | some r => r.created_at
    | none => now
  let row : SessionRow :=
    { session_id := sessionId
      user_mission := getStrD state "user_mission" ""
      project_name := getStrD state "project_name" "project"
      status := determine_status state
      current_phase := getStrD state "current_phase" "pm"
      created_at := created_at
      updated_at := now
      iteration_count := getIntD state "iteration_count" 0
      qa_passed := match dictGet state "qa_passed" with
        | some v => jsonTruthy v
        | none => false
      work_dir := getStrD state "work_dir" ""
      state_json := serialize_state state }
  if tbl.any (fun r => r.session_id = sessionId) then
    tbl.map (fun r => if r.session_id = sessionId then row else r)
  else
    tbl ++ [row]

/-- `SessionStore.get_state`: `none` when the row is missing, otherwise the
stored blob run through `deserialize_state` (which raises on a blob without
`user_mission`; the raise is carried as the inner `Except.error`). -/
def store_get_state (sessionId : String) (tbl : List SessionRow) :
    Option (Except String StateDict) :=
  match tbl.find? (fun r => r.session_id = sessionId) with
  | some r => some (deserialize_state r.state_json)
  | none => none

/-- `SessionStore.delete_session`: delete the row; `True` when a row was
deleted (`cursor.rowcount > 0`). -/
def store_delete_session (sessionId : String) (tbl : List SessionRow) :
    List SessionRow × Bool :=
  (tbl.filter (fun r => ¬ r.session_id = sessionId),
   tbl.any (fun r => r.session_id = sessionId))

/-- `SessionStore.cleanup_expired`, with `cutoff = now - ttl_days` as an
instant: first the UPDATE marks every session with `updated_at < cutoff` whose
status is neither COMPLETED nor EXPIRED as EXPIRED (the UPDATE does not touch
`updated_at`), then the DELETE removes every session with `updated_at <
cutoff` whose status is EXPIRED; the returned count is the DELETE rowcount. -/
def cleanup_expired (cutoff : Nat) (tbl : List SessionRow) :
    List SessionRow × Nat :=
  let marked := tbl.map (fun r =>
    if r.updated_at < cutoff ∧ r.status ≠ SessionStatus.completed ∧
        r.status ≠ SessionStatus.expired
    then { r with status := SessionStatus.expired } else r)
  (marked.filter (fun r => ¬ (r.updated_at < cutoff ∧ r.status = SessionStatus.expired)),
   marked.countP (fun r => r.updated_at < cutoff ∧ r.status = SessionStatus.expired))

/-- One row of the `checkpoints` table of
`sqlite_checkpointer.LocalSqliteSaver`. -/
structure CkptRow where
  thread_id : String
  checkpoint_ns : String
  checkpoint_id : String
  checkpoint_type : String
  checkpoint_blob : String
  metadata_type : String
  metadata_blob : String
  parent_checkpoint_id : Option String
  created_at : Nat
deriving DecidableEq

/-- One row of the `writes` table of `sqlite_checkpointer.LocalSqliteSaver`.
The serde output pair is carried in `value_type` / `value_blob`. -/
structure WriteRow where
  thread_id : String
  checkpoint_ns : String
  checkpoint_id : String
  task_id : String
  write_idx : Int
  channel : String
  value_type : String
  value_blob : String
  task_path : String
deriving DecidableEq

/-- The durable state the orchestrator owns: the session-store table plus the
two checkpointer tables. -/
structure SystemState where
  sessions : List SessionRow
  checkpoints : List CkptRow
  writes : List WriteRow

/-- `Orchestrator.delete_session`: the body is exactly
`return self._store.delete_session(session_id)` — only the session-store row
is touched; the checkpointer is not consulted. -/
def orchestrator_delete_session (sessionId : String) (sys : SystemState) :
    SystemState × Bool :=
  let r := store_delete_session sessionId sys.sessions
  ({ sys with sessions := r.fst }, r.snd)

/-- `LocalSqliteSaver.delete_thread`: removes all checkpoints and pending
writes of a thread.  Defined from the sources; no code path of the repository
invokes it. -/
def delete_thread (threadId : String) (sys : SystemState) : SystemState :=
  { sys with
      checkpoints := sys.checkpoints.filter (fun r => ¬ r.thread_id = threadId)
      writes := sys.writes.filter (fun r => ¬ r.thread_id = threadId) }

/-- `Orchestrator.import_session`, file already read and parsed into
`payload` (a missing file and unparsable text fail at the text layer, before
the logic modelled here).  The code requires only the `"state"` key, builds
`AgentState(**data["state"])` — the dictionary itself — takes
`state.get("session_id", uuid4())` with `freshId` standing for the generated
uuid, and persists through `SessionStore.save_session`. -/
def session_import (payload : Json) (freshId : String) (now : Nat)
    (tbl : List SessionRow) : Except String (String × List SessionRow) :=
  match payload with
  | Json.obj data =>
      match dictGet data "state" with
      | some (Json.obj state) =>
          let sessionId := getStrD state "session_id" freshId
          Except.ok (sessionId, save_session now sessionId state tbl)
      | some _ => Except.error "state payload is not an object"
      | none => Except.error "Export file missing state field"
  | _ => Except.error "Export file missing state field"

/-- The composite primary key of the `writes` table:
`(thread_id, checkpoint_ns, checkpoint_id, task_id, write_idx)`. -/
structure WriteKey where
  thread_id : String
  checkpoint_ns : String
  checkpoint_id : String
  task_id : String
  write_idx : Int
deriving DecidableEq

/-- The primary key of a `writes` row. -/
def keyOf (r : WriteRow) : WriteKey :=
  { thread_id := r.thread_id
    checkpoint_ns := r.checkpoint_ns
    checkpoint_id := r.checkpoint_id
    task_id := r.task_id
    write_idx := r.write_idx }

/-- The existence query of `put_writes`: `SELECT 1 FROM writes WHERE ...` on
the composite key. -/
def rowsHaveKey (tbl : List WriteRow) (k : WriteKey) : Bool :=
  tbl.any (fun r => keyOf r = k)

/-- The row stored under a key (the composite primary key makes it unique). -/
def lookupWrite (tbl : List WriteRow) (k : WriteKey) : Option WriteRow :=
  tbl.find? (fun r => keyOf r = k)

/-- SQLite `INSERT OR REPLACE` on the `writes` table: replace the conflicting
row, or append. -/
def insertOrReplaceWrite (tbl : List WriteRow) (row : WriteRow) : List WriteRow :=
  if rowsHaveKey tbl (keyOf row) then
    tbl.map (fun r => if keyOf r = keyOf row then row else r)
  else
    tbl ++ [row]

/-- The loop body of `LocalSqliteSaver.put_writes` for one write of the batch:
`write_idx = WRITES_IDX_MAP.get(channel, idx)`; when `write_idx >= 0` and a
row with the key already exists the write is skipped (`continue`), otherwise
the row is INSERT OR REPLACEd.  `idxMap` is langgraph `WRITES_IDX_MAP`, an
external constant mapping a few special channels to negative indices, kept
abstract.  The serde is the identity on the already-serialised value
string. -/
def putWriteStep (idxMap : String → Option Int)
    (thread ns ckpt task taskPath : String) (i : Nat) (channel value : String)
    (tbl : List WriteRow) : List WriteRow :=
  let wIdx := (idxMap channel).getD (Int.ofNat i)
  let k : WriteKey :=
    { thread_id := thread, checkpoint_ns := ns, checkpoint_id := ckpt,
      task_id := task, write_idx := wIdx }
  if 0 ≤ wIdx ∧ rowsHaveKey tbl k then tbl
  else insertOrReplaceWrite tbl
    { thread_id := thread, checkpoint_ns := ns, checkpoint_id := ckpt,
      task_id := task, write_idx := wIdx, channel := channel,
      value_type := "blob", value_blob := value, task_path := taskPath }

/-- The loop of `put_writes` over `enumerate(writes)`, one `putWriteStep` per
write. -/
def putWritesAux (idxMap : String → Option Int)
    (thread ns ckpt task taskPath : String) :
    Nat → List (String × String) → List WriteRow → List WriteRow
  | _, [], tbl => tbl
  | i, (channel, value) :: rest, tbl =>
      putWritesAux idxMap thread ns ckpt task taskPath (i + 1) rest
        (putWriteStep idxMap thread ns ckpt task taskPath i channel value tbl)

/-- `LocalSqliteSaver.put_writes`: the config is flattened into
`(thread, ns, ckpt)`; enumeration starts at index 0. -/
def put_writes (idxMap : String → Option Int)
    (thread ns ckpt task taskPath : String)
    (writes : List (String × String)) (tbl : List WriteRow) : List WriteRow :=
  putWritesAux idxMap thread ns ckpt task taskPath 0 writes tbl

/-- Whether every computed write index of a `put_writes` call starting at
position `i` is non-negative (no channel of the call is one of the special
negatively-indexed langgraph channels). -/
def allIdxNonneg (idxMap : String → Option Int) :
    Nat → List (String × String) → Bool
  | _, [] => true
  | i, (channel, _) :: rest =>
      decide (0 ≤ (idxMap channel).getD (Int.ofNat i)) &&
        allIdxNonneg idxMap (i + 1) rest

/-- A session state sitting at phase `"PM"` (upper case), used to probe the
case handling of the transition validator. -/
def statePM : AgentState :=
  { create_initial_state "m" "project" "/w" 5 "sid" "t0" with
      current_phase := some "PM" }

/-- The initial state built from the empty mission. -/
def initialEmptyMission : AgentState :=
  create_initial_state "" "project" "/w" 5 "sid" "t0"

/-- A wrapper result of a successful engineer run (no artifacts). -/
def wEng : WrapperAgentState :=
  { mission := "Build a task app", project_name := "p", work_dir := "/w",
    current_phase := "eng", path_prd := none, path_tech_spec := none,
    path_scaffold_script := none, path_bug_report := none,
    files_created := ["src/main.py"], qa_passed := none, errors := [] }

/-- A wrapper result of a QA run that failed the tests: the agent reports
`qa_passed = False` and a bug report. -/
def wFail : WrapperAgentState :=
  { mission := "Build a task app", project_name := "p", work_dir := "/w",
    current_phase := "qa", path_prd := none, path_tech_spec := none,
    path_scaffold_script := none, path_bug_report := some "reports/BUG_REPORT.md",
    files_created := ["src/main.py"], qa_passed := some false, errors := [] }

/-- One repair cycle in which the engineer succeeds and QA fails again. -/
def failCycle : CycleIO := ("t1", AgentOutcome.ok wEng, "t2", AgentOutcome.ok wFail)

/-- A session entering the repair loop with `max_iterations = 2` and QA not
passed (the failing input of the iteration-budget claim). -/
def s0c1 : AgentState :=
  create_initial_state "Build a task app" "p" "/w" 2 "sid" "t0"

/-- A RUNNING session whose `updated_at` lies before any positive cutoff. -/
def oldRunningRow : SessionRow :=
  { session_id := "old-session", user_mission := "Old mission",
    project_name := "p", status := SessionStatus.running,
    current_phase := "eng", created_at := 0, updated_at := 0,
    iteration_count := 0, qa_passed := false, work_dir := "/w",
    state_json := Json.obj [("user_mission", Json.str "Old mission")] }

/-- A checkpoint row of the thread `"s1"`. -/
def ckpt1 : CkptRow :=
  { thread_id := "s1", checkpoint_ns := "", checkpoint_id := "c1",
    checkpoint_type := "msgpack", checkpoint_blob := "blob1",
    metadata_type := "msgpack", metadata_blob := "meta1",
    parent_checkpoint_id := none, created_at := 1 }

/-- A pending-write row of the thread `"s1"`. -/
def write1 : WriteRow :=
  { thread_id := "s1", checkpoint_ns := "", checkpoint_id := "c1",
    task_id := "task1", write_idx := 0, channel := "messages",
    value_type := "blob", value_blob := "v1", task_path := "" }

/-- A session-store row of the session `"s1"`. -/
def sessionRow1 : SessionRow :=
  { session_id := "s1", user_mission := "m", project_name := "p",
    status := SessionStatus.awaiting_approval, current_phase := "human_gate",
    created_at := 1, updated_at := 1, iteration_count := 0, qa_passed := false,
    work_dir := "/w", state_json := Json.obj [("user_mission", Json.str "m")] }

/-- A durable system holding the session `"s1"` with one checkpoint and one
pending write for its thread. -/
def sys1 : SystemState :=
  { sessions := [sessionRow1], checkpoints := [ckpt1], writes := [write1] }

/-- An export payload whose `state` object is empty: it lacks
`user_mission`. -/
def payloadNoMission : Json :=
  Json.obj [("version", Json.str "1.0"), ("state", Json.obj [])]

/-- An export payload whose state carries a `session_id` and a mission. -/
def payloadWithId : Json :=
  Json.obj [("version", Json.str "1.0"),
            ("state", Json.obj [("user_mission", Json.str "Imported mission"),
                                ("session_id", Json.str "imported-session")])]

/-- The row `session_import payloadNoMission` persists: an empty mission and a
`state_json` blob without `user_mission`. -/
def rowNoMission : SessionRow :=
  { session_id := "fresh-id", user_mission := "", project_name := "project",
    status := SessionStatus.running, current_phase := "pm",
    created_at := 5, updated_at := 5, iteration_count := 0, qa_passed := false,
    work_dir := "", state_json := Json.obj [] }

/-- The langgraph `WRITES_IDX_MAP` with its one special channel mapped to a
negative index, used as a concrete instantiation in witnesses. -/
def idxMap0 : String → Option Int :=
  fun channel => if channel = "__pregel_tasks" then some (-1) else none

/-- A writes-table row under the key probed by the idempotency witness. -/
def writeRow0 : WriteRow :=
  { thread_id := "t", checkpoint_ns := "", checkpoint_id := "c",
    task_id := "task", write_idx := 0, channel := "messages",
    value_type := "blob", value_blob := "old", task_path := "" }

/-- The key of `writeRow0`. -/
def writeKey0 : WriteKey :=
  { thread_id := "t", checkpoint_ns := "", checkpoint_id := "c",
    task_id := "task", write_idx := 0 }

/-- A `put_writes` batch that collides with `writeRow0` on its key. -/
def wsBatch0 : List (String × String) := [("messages", "new")]

/-- A state dictionary holding a mission (a well-formed session state). -/
def dictWithMission : StateDict :=
  [("user_mission", Json.str "Build a task app"),
   ("current_phase", Json.str "pm"),
   ("iteration_count", Json.num 0)]

/-- A state dictionary without the `user_mission` key. -/
def dictNoMission : StateDict :=
  [("current_phase", Json.str "pm")]

/-- Whether an `Except` result is a success (a Python call that did not
raise). -/
def exceptIsOk {e a : Type} : Except e a → Bool
  | Except.ok _ => true
  | Except.error _ => false

/-- Claim C3: for every state, the router after the human gate returns
engineer when the decision is APPROVE; on REJECT it returns the reject target
when that target is pm or architect and architect for any other reject value;
and when the decision is unset it returns human_gate as the safety
fallback. -/
theorem route_after_human_gate_decision_cases (s : AgentState) (r : Option String) :
    route_after_human_gate { s with decision := some "APPROVE" } = "engineer"
  ∧ route_after_human_gate { s with decision := some "REJECT", reject_phase := r }
      = (if r = some "pm" then "pm" else "architect")
  ∧ route_after_human_gate { s with decision := none } = "human_gate" := by
  refine ⟨rfl, ?_, rfl⟩
  cases r with
  | none => simp [route_after_human_gate]
  | some x =>
      by_cases h : x = "pm"
      · simp [route_after_human_gate, h]
      · by_cases h2 : x = "architect" <;> simp [route_after_human_gate, h, h2]

/-- Claim C4: the router after QA evaluates qa-passed before the iteration
budget: when QA passed it routes to end (END) regardless of the iteration
count; otherwise it routes back to engineer while the count is below the
maximum and to human_help once the count has reached it. -/
theorem route_after_qa_order (s : AgentState) :
    route_after_qa { s with qa_passed := some true } = "end"
  ∧ route_after_qa { s with qa_passed := some false }
      = (if s.iteration_count.getD 0 < s.max_iterations.getD 5
         then "engineer" else "human_help") := by
  constructor
  · rfl
  · by_cases h : s.iteration_count.getD 0 < s.max_iterations.getD 5 <;>
      simp [route_after_qa, h]

/-- Claim C5 (the code at the failing input): creating the initial session
state from the empty mission does not fail — it returns a session whose
mission is the empty string, a state that the validator of the module rejects with
the empty-mission error. -/
theorem create_initial_state_empty_mission_returns :
    initialEmptyMission.user_mission = some ""
  ∧ validate_state initialEmptyMission
      = ["user_mission is required and cannot be empty"] := by
  exact ⟨rfl, by decide⟩

/-- Claim C2 (amended): with validation enabled, `transition_phase` succeeds
exactly when the lower-cased pair is in the transition table (matching is
case-insensitive); on success the phase of the returned session equals the target
phase as given.  On failure it raises `StateTransitionError`, modelled as
`Except.error`, and — the function being pure on an immutable value — the
session is unchanged. -/
theorem transition_phase_success_characterisation (now : String)
    (s : AgentState) (toPhase : String) :
    (exceptIsOk (transition_phase now s toPhase true) = true
       ↔ inTransitionTable (strToLower (s.current_phase.getD "pm"))
           (strToLower toPhase) = true)
  ∧ (exceptIsOk (transition_phase now s toPhase true) = true →
       phaseOfResult (transition_phase now s toPhase true) = some toPhase) := by
  by_cases h : inTransitionTable (strToLower (s.current_phase.getD "pm"))
      (strToLower toPhase) = true
  · simp [transition_phase, validate_transition, h, exceptIsOk, phaseOfResult]
  · simp only [Bool.not_eq_true] at h
    simp [transition_phase, validate_transition, h, exceptIsOk, phaseOfResult]

/-- Claim C2 counterexample: from the phase `"PM"` the transition to `"ARCH"`
succeeds — and sets the phase to `"ARCH"` — although the pair (PM, ARCH) is
not in the transition table, so a pair not in the table does succeed and the
claim as stated is false. -/
theorem transition_phase_uppercase_pair_succeeds :
    exceptIsOk (transition_phase "t1" statePM "ARCH" true) = true
  ∧ inTransitionTable "PM" "ARCH" = false
  ∧ statePM.current_phase = some "PM"
  ∧ phaseOfResult (transition_phase "t1" statePM "ARCH" true) = some "ARCH" := by
  refine ⟨by decide, by decide, rfl, by decide⟩

/-- Claim C10: serialisation of a session state is a stable round trip — for
every well-formed state dictionary (one carrying the `user_mission` key),
deserialising the serialised form yields the original dictionary — and
deserialising any object payload that lacks `user_mission` fails with the
invalid-payload error. -/
theorem serialize_state_round_trip :
    (∀ d : StateDict, hasKey d "user_mission" = true →
        deserialize_state (serialize_state d) = Except.ok d)
  ∧ (∀ d : StateDict, hasKey d "user_mission" = false →
        deserialize_state (Json.obj d)
          = Except.error "State must contain user_mission field") := by
  constructor
  · intro d h
    simp [deserialize_state, serialize_state, h]
  · intro d h
    simp [deserialize_state, h]

/-- Claim C10 witness: both parts of the round-trip theorem applied at
concrete dictionaries, hypotheses discharged by evaluation. -/
theorem serialize_state_round_trip_witness :
    deserialize_state (serialize_state dictWithMission) = Except.ok dictWithMission
  ∧ deserialize_state (Json.obj dictNoMission)
      = Except.error "State must contain user_mission field" :=
  ⟨serialize_state_round_trip.1 dictWithMission (by decide),
   serialize_state_round_trip.2 dictNoMission (by decide)⟩

/-- The surviving rows of one `cleanup_expired` call: exactly those that are
newer than the cutoff or COMPLETED — every old non-COMPLETED row is gone,
whatever its status was when the call began. -/
theorem cleanup_expired_fst_eq (cutoff : Nat) (tbl : List SessionRow) :
    (cleanup_expired cutoff tbl).fst
      = tbl.filter
          (fun r => ¬ (r.updated_at < cutoff ∧ r.status ≠ SessionStatus.completed)) := by
  induction tbl with
  | nil => rfl
  | cons r t ih =>
      simp only [cleanup_expired, List.map_cons, List.filter_cons] at ih ⊢
      by_cases h1 : r.updated_at < cutoff
      · by_cases h2 : r.status = SessionStatus.completed
        · simp [h1, h2] at ih ⊢
          exact ih
        · by_cases h3 : r.status = SessionStatus.expired <;>
            simp [h1, h2, h3] at ih ⊢ <;> exact ih
      · by_cases h3 : r.status = SessionStatus.expired <;>
          simp [h1, h3] at ih ⊢ <;> exact ih

/-- The rowcount one `cleanup_expired` call returns: the number of old
non-COMPLETED rows, the freshly marked ones included. -/
theorem cleanup_expired_snd_eq (cutoff : Nat) (tbl : List SessionRow) :
    (cleanup_expired cutoff tbl).snd
      = tbl.countP
          (fun r => decide (r.updated_at < cutoff ∧ r.status ≠ SessionStatus.completed)) := by
  induction tbl with
  | nil => rfl
  | cons r t ih =>
      simp only [cleanup_expired, List.map_cons, List.countP_cons] at ih ⊢
      by_cases h1 : r.updated_at < cutoff
      · by_cases h2 : r.status = SessionStatus.completed
        · simp [h1, h2] at ih ⊢
          exact ih
        · by_cases h3 : r.status = SessionStatus.expired <;>
            simp [h1, h2, h3] at ih ⊢ <;> omega
      · by_cases h3 : r.status = SessionStatus.expired <;>
          simp [h1, h3] at ih ⊢ <;> exact ih

/-- Claim C6 (the code at the failing input): one `cleanup_expired` call
deletes every session older than the cutoff whose status is not COMPLETED —
because the marking UPDATE does not refresh `updated_at`, a session marked
EXPIRED by the first step is deleted by the second step of the same call.  In
particular a RUNNING old session, not EXPIRED when the call started, is
deleted by that very call. -/
theorem cleanup_expired_single_call_deletes :
    (∀ (cutoff : Nat) (tbl : List SessionRow),
        (cleanup_expired cutoff tbl).fst
          = tbl.filter
              (fun r => ¬ (r.updated_at < cutoff ∧ r.status ≠ SessionStatus.completed)))
  ∧ oldRunningRow.status = SessionStatus.running
  ∧ (cleanup_expired 1 [oldRunningRow]).fst = []
  ∧ (cleanup_expired 1 [oldRunningRow]).snd = 1 := by
  refine ⟨cleanup_expired_fst_eq, rfl, rfl, rfl⟩

/-- Claim C7 (amended): after `Orchestrator.delete_session` returns, the
metadata row of the session has been removed from the session store and every
other session row is untouched, but the checkpoints and pending writes of the
thread of the session are NOT removed — the orchestrator only calls the store, and
the checkpointer tables are returned unchanged
(`LocalSqliteSaver.delete_thread` exists but is never invoked). -/
theorem delete_session_removes_only_metadata (sessionId : String)
    (sys : SystemState) :
    (orchestrator_delete_session sessionId sys).fst.sessions
        = sys.sessions.filter (fun r => ¬ r.session_id = sessionId)
  ∧ (orchestrator_delete_session sessionId sys).fst.checkpoints = sys.checkpoints
  ∧ (orchestrator_delete_session sessionId sys).fst.writes = sys.writes
  ∧ (orchestrator_delete_session sessionId sys).snd
        = sys.sessions.any (fun r => r.session_id = sessionId)
  ∧ (∀ r, r ∈ sys.sessions → r.session_id ≠ sessionId →
        r ∈ (orchestrator_delete_session sessionId sys).fst.sessions) := by
  refine ⟨rfl, rfl, rfl, rfl, ?_⟩
  intro r hmem hne
  simp [orchestrator_delete_session, store_delete_session, List.mem_filter,
        hmem, hne]

/-- Claim C7 counterexample: deleting the session `"s1"` removes its metadata
row and reports success, yet the checkpoint and the pending write stored for
the thread `"s1"` are still present afterwards — the claim that they are
removed is false. -/
theorem delete_session_leaves_checkpoints :
    (orchestrator_delete_session "s1" sys1).snd = true
  ∧ (orchestrator_delete_session "s1" sys1).fst.sessions = []
  ∧ (orchestrator_delete_session "s1" sys1).fst.checkpoints = [ckpt1]
  ∧ (orchestrator_delete_session "s1" sys1).fst.writes = [write1]
  ∧ ckpt1.thread_id = "s1"
  ∧ write1.thread_id = "s1" := by
  refine ⟨rfl, rfl, rfl, rfl, rfl, rfl⟩

/-- Claim C9 (the code at the failing input): importing a payload whose state
object lacks `user_mission` does not fail — the session is persisted under the
generated id with an empty mission, and the stored blob then fails the
`get_state` deserialisation of the store itself.  A payload whose state carries a session id
does reuse it. -/
theorem import_session_missing_mission_persists :
    session_import payloadNoMission "fresh-id" 5 []
        = Except.ok ("fresh-id", [rowNoMission])
  ∧ rowNoMission.user_mission = ""
  ∧ rowNoMission.state_json = Json.obj []
  ∧ store_get_state "fresh-id" [rowNoMission]
        = some (Except.error "State must contain user_mission field")
  ∧ (∃ tbl, session_import payloadWithId "generated-id" 7 []
        = Except.ok ("imported-session", tbl)) := by
  refine ⟨rfl, rfl, rfl, rfl, ⟨_, rfl⟩⟩

/-- `_convert_from_wrapper_state` never writes `iteration_count` or
`max_iterations` (its update dictionary holds only phase, qa flag, files,
errors and the artifact paths), and it sets `qa_passed` from the wrapper
result with the original as fallback. -/
theorem convert_from_wrapper_state_fields (now : String) (w : WrapperAgentState)
    (original : AgentState) :
    (convert_from_wrapper_state now w original).iteration_count
        = original.iteration_count
  ∧ (convert_from_wrapper_state now w original).max_iterations
        = original.max_iterations
  ∧ (convert_from_wrapper_state now w original).qa_passed
        = some (w.qa_passed.getD (original.qa_passed.getD false)) := by
  rcases w with ⟨m, pn, wd, cp, prd, ts, sc, br, fc, qp, er⟩
  cases prd <;> cases ts <;> cases sc <;> cases br <;> exact ⟨rfl, rfl, rfl⟩

/-- Neither branch of the engineer node touches the iteration counter or the
iteration budget. -/
theorem engineer_node_preserves_iteration (now : String)
    (outcome : AgentOutcome) (s : AgentState) :
    (engineer_node now outcome s).iteration_count = s.iteration_count
  ∧ (engineer_node now outcome s).max_iterations = s.max_iterations := by
  cases outcome with
  | ok w =>
      have h := convert_from_wrapper_state_fields now w s
      exact ⟨h.1, h.2.1⟩
  | error e => exact ⟨rfl, rfl⟩

/-- Neither branch of the QA node touches the iteration counter or the
iteration budget. -/
theorem qa_node_preserves_iteration (now : String)
    (outcome : AgentOutcome) (s : AgentState) :
    (qa_node now outcome s).iteration_count = s.iteration_count
  ∧ (qa_node now outcome s).max_iterations = s.max_iterations := by
  cases outcome with
  | ok w =>
      have h := convert_from_wrapper_state_fields now w s
      exact ⟨h.1, h.2.1⟩
  | error e => exact ⟨rfl, rfl⟩

/-- Any sequence of repair cycles leaves the iteration counter and the budget
exactly as they were. -/
theorem runCycles_preserves_iteration (cycles : List CycleIO) (s : AgentState) :
    (runCycles cycles s).iteration_count = s.iteration_count
  ∧ (runCycles cycles s).max_iterations = s.max_iterations := by
  induction cycles generalizing s with
  | nil => exact ⟨rfl, rfl⟩
  | cons c rest ih =>
      rcases c with ⟨nowE, outE, nowQ, outQ⟩
      have he := engineer_node_preserves_iteration nowE outE s
      have hq := qa_node_preserves_iteration nowQ outQ (engineer_node nowE outE s)
      have := ih (qa_node nowQ outQ (engineer_node nowE outE s))
      exact ⟨by rw [runCycles, this.1, hq.1, he.1],
             by rw [runCycles, this.2, hq.2, he.2]⟩

/-- One failing repair cycle keeps the counter at 0, the budget at 2, and the
qa flag false. -/
theorem failCycle_step (s : AgentState) (h1 : s.iteration_count = some 0)
    (h2 : s.max_iterations = some 2) :
    (runCycles [failCycle] s).iteration_count = some 0
  ∧ (runCycles [failCycle] s).max_iterations = some 2
  ∧ (runCycles [failCycle] s).qa_passed = some false := by
  have he := engineer_node_preserves_iteration "t1" (AgentOutcome.ok wEng) s
  have hq := qa_node_preserves_iteration "t2" (AgentOutcome.ok wFail)
      (engineer_node "t1" (AgentOutcome.ok wEng) s)
  have hqa := convert_from_wrapper_state_fields "t2" wFail
      (engineer_node "t1" (AgentOutcome.ok wEng) s)
  refine ⟨?_, ?_, ?_⟩
  · show (qa_node "t2" (AgentOutcome.ok wFail)
        (engineer_node "t1" (AgentOutcome.ok wEng) s)).iteration_count = some 0
    rw [hq.1, he.1, h1]
  · show (qa_node "t2" (AgentOutcome.ok wFail)
        (engineer_node "t1" (AgentOutcome.ok wEng) s)).max_iterations = some 2
    rw [hq.2, he.2, h2]
  · show (qa_node "t2" (AgentOutcome.ok wFail)
        (engineer_node "t1" (AgentOutcome.ok wEng) s)).qa_passed = some false
    rw [show qa_node "t2" (AgentOutcome.ok wFail)
        (engineer_node "t1" (AgentOutcome.ok wEng) s)
        = convert_from_wrapper_state "t2" wFail
            (engineer_node "t1" (AgentOutcome.ok wEng) s) from rfl]
    rw [hqa.2.2]
    rfl

/-- A state with counter 0, budget 2 and qa not passed is routed back to the
engineer. -/
theorem route_after_qa_of_inv (s : AgentState)
    (h1 : s.iteration_count = some 0) (h2 : s.max_iterations = some 2)
    (h3 : s.qa_passed = some false) :
    route_after_qa s = "engineer" := by
  simp [route_after_qa, h1, h2, h3]

/-- Claim C1 (the code at the failing input): no node of the workflow ever
calls `increment_iteration`, so the iteration counter survives any number of
repair cycles unchanged; starting from the initial state with
`max_iterations = 2` and QA failing on every cycle, every cycle routes back to
the engineer and the router never reaches human_help — the counter is never
incremented before the engineer re-runs, and no cycle with
`iteration_count >= max_iterations` ever occurs. -/
theorem repair_loop_never_reaches_human_help :
    (∀ (cycles : List CycleIO) (s : AgentState),
        (runCycles cycles s).iteration_count = s.iteration_count)
  ∧ (∀ n : Nat,
        route_after_qa (runCycles (List.replicate n failCycle) s0c1)
          = "engineer") := by
  constructor
  · intro cycles s
    exact (runCycles_preserves_iteration cycles s).1
  · have key : ∀ (n : Nat) (s : AgentState), s.iteration_count = some 0 →
        s.max_iterations = some 2 → s.qa_passed = some false →
        route_after_qa (runCycles (List.replicate n failCycle) s) = "engineer" := by
      intro n
      induction n with
      | zero =>
          intro s h1 h2 h3
          exact route_after_qa_of_inv s h1 h2 h3
      | succ m ih =>
          intro s h1 h2 h3
          have hstep := failCycle_step s h1 h2
          have hsplit : runCycles (List.replicate (m + 1) failCycle) s
              = runCycles (List.replicate m failCycle) (runCycles [failCycle] s) := rfl
          rw [hsplit]
          exact ih (runCycles [failCycle] s) hstep.1 hstep.2.1 hstep.2.2
    intro n
    exact key n s0c1 rfl rfl rfl

/-- A key is stored exactly when some row of the table carries it. -/
theorem rowsHaveKey_iff (tbl : List WriteRow) (k : WriteKey) :
    rowsHaveKey tbl k = true ↔ ∃ r ∈ tbl, keyOf r = k := by
  simp [rowsHaveKey, List.any_eq_true]

/-- After an INSERT OR REPLACE the key of the written row is stored. -/
theorem rowsHaveKey_insertOrReplace_self (tbl : List WriteRow) (row : WriteRow) :
    rowsHaveKey (insertOrReplaceWrite tbl row) (keyOf row) = true := by
  by_cases h : rowsHaveKey tbl (keyOf row) = true
  · simp only [insertOrReplaceWrite, h, if_true]
    rw [rowsHaveKey_iff] at h
    obtain ⟨r, hr, hk⟩ := h
    rw [rowsHaveKey_iff]
    refine ⟨row, List.mem_map.mpr ⟨r, hr, ?_⟩, rfl⟩
    simp [hk]
  · simp only [insertOrReplaceWrite, h, if_false]
    rw [rowsHaveKey_iff]
    exact ⟨row, by simp, rfl⟩

/-- An INSERT OR REPLACE never removes a stored key. -/
theorem rowsHaveKey_insertOrReplace_mono (tbl : List WriteRow) (row : WriteRow)
    (k : WriteKey) (h : rowsHaveKey tbl k = true) :
    rowsHaveKey (insertOrReplaceWrite tbl row) k = true := by
  by_cases heq : keyOf row = k
  · rw [← heq]
    exact rowsHaveKey_insertOrReplace_self tbl row
  · by_cases hp : rowsHaveKey tbl (keyOf row) = true
    · simp only [insertOrReplaceWrite, hp, if_true]
      rw [rowsHaveKey_iff] at h
      obtain ⟨r, hr, hk⟩ := h
      have hne : ¬ (keyOf r = keyOf row) := by
        rw [hk]
        exact fun hh => heq hh.symm
      rw [rowsHaveKey_iff]
      refine ⟨r, List.mem_map.mpr ⟨r, hr, ?_⟩, hk⟩
      simp [hne]
    · simp only [insertOrReplaceWrite, hp, if_false]
      rw [rowsHaveKey_iff] at h ⊢
      obtain ⟨r, hr, hk⟩ := h
      exact ⟨r, by simp [hr], hk⟩

/-- Replacing the rows of one key leaves the lookup of every other key
alone. -/
theorem find_map_replace (row : WriteRow) (k : WriteKey) (h : ¬ keyOf row = k)
    (tbl : List WriteRow) :
    (tbl.map (fun r => if keyOf r = keyOf row then row else r)).find?
        (fun r => keyOf r = k)
      = tbl.find? (fun r => keyOf r = k) := by
  induction tbl with
  | nil => rfl
  | cons r t ih =>
      simp only [List.map_cons]
      by_cases h1 : keyOf r = keyOf row
      · have hk : ¬ keyOf r = k := fun hh => h (h1.symm.trans hh)
        rw [if_pos h1]
        rw [List.find?_cons_of_neg _ (by simp [h]),
            List.find?_cons_of_neg _ (by simp [hk])]
        exact ih
      · rw [if_neg h1]
        by_cases h2 : keyOf r = k
        · rw [List.find?_cons_of_pos _ (by simp [h2]),
              List.find?_cons_of_pos _ (by simp [h2])]
        · rw [List.find?_cons_of_neg _ (by simp [h2]),
              List.find?_cons_of_neg _ (by simp [h2])]
          exact ih

/-- Appending a row of another key leaves a lookup alone. -/
theorem find_append_single_ne (row : WriteRow) (k : WriteKey)
    (h : ¬ keyOf row = k) (tbl : List WriteRow) :
    (tbl ++ [row]).find? (fun r => keyOf r = k)
      = tbl.find? (fun r => keyOf r = k) := by
  induction tbl with
  | nil => simp [h]
  | cons r t ih =>
      by_cases h2 : keyOf r = k <;> simp [h2, ih]

/-- An INSERT OR REPLACE changes no row stored under a different key. -/
theorem lookupWrite_insertOrReplace_ne (tbl : List WriteRow) (row : WriteRow)
    (k : WriteKey) (h : ¬ keyOf row = k) :
    lookupWrite (insertOrReplaceWrite tbl row) k = lookupWrite tbl k := by
  by_cases hp : rowsHaveKey tbl (keyOf row) = true
  · simp only [insertOrReplaceWrite, lookupWrite, hp, if_true]
    exact find_map_replace row k h tbl
  · simp only [insertOrReplaceWrite, lookupWrite, hp, if_false]
    exact find_append_single_ne row k h tbl

/-- One loop step of `put_writes` never removes a stored key. -/
theorem putWriteStep_mono (idxMap : String → Option Int)
    (thread ns ckpt task taskPath : String) (i : Nat) (channel value : String)
    (tbl : List WriteRow) (k : WriteKey) (h : rowsHaveKey tbl k = true) :
    rowsHaveKey (putWriteStep idxMap thread ns ckpt task taskPath i channel value tbl) k
      = true := by
  simp only [putWriteStep]
  split
  · exact h
  · exact rowsHaveKey_insertOrReplace_mono tbl _ k h

/-- After one loop step the key the step targets is stored. -/
theorem putWriteStep_key_present (idxMap : String → Option Int)
    (thread ns ckpt task taskPath : String) (i : Nat) (channel value : String)
    (tbl : List WriteRow) :
    rowsHaveKey (putWriteStep idxMap thread ns ckpt task taskPath i channel value tbl)
      { thread_id := thread, checkpoint_ns := ns, checkpoint_id := ckpt,
        task_id := task, write_idx := (idxMap channel).getD (Int.ofNat i) }
      = true := by
  simp only [putWriteStep]
  split
  · next hcond => exact hcond.2
  · exact rowsHaveKey_insertOrReplace_self tbl _

/-- The skip branch: a step whose computed index is non-negative and whose
key is already stored leaves the table untouched. -/
theorem putWriteStep_skips_present (idxMap : String → Option Int)
    (thread ns ckpt task taskPath : String) (i : Nat) (channel value : String)
    (tbl : List WriteRow)
    (h0 : 0 ≤ (idxMap channel).getD (Int.ofNat i))
    (hp : rowsHaveKey tbl
      { thread_id := thread, checkpoint_ns := ns, checkpoint_id := ckpt,
        task_id := task, write_idx := (idxMap channel).getD (Int.ofNat i) } = true) :
    putWriteStep idxMap thread ns ckpt task taskPath i channel value tbl = tbl := by
  simp only [putWriteStep]
  rw [if_pos ⟨h0, hp⟩]

/-- A step never changes the row stored under a non-negative key that
already exists. -/
theorem putWriteStep_preserves_lookup (idxMap : String → Option Int)
    (thread ns ckpt task taskPath : String) (i : Nat) (channel value : String)
    (tbl : List WriteRow) (k : WriteKey)
    (h0 : 0 ≤ k.write_idx) (hp : rowsHaveKey tbl k = true) :
    lookupWrite (putWriteStep idxMap thread ns ckpt task taskPath i channel value tbl) k
      = lookupWrite tbl k := by
  simp only [putWriteStep]
  split
  · rfl
  · next hcond =>
      apply lookupWrite_insertOrReplace_ne
      intro hkey
      apply hcond
      have hkk : WriteKey.mk thread ns ckpt task
          ((idxMap channel).getD (Int.ofNat i)) = k := hkey
      constructor
      · have hidx := congrArg WriteKey.write_idx hkk
        exact le_of_le_of_eq h0 hidx.symm
      · rw [hkk]
        exact hp

/-- The `put_writes` loop never removes a stored key. -/
theorem putWritesAux_mono (idxMap : String → Option Int)
    (thread ns ckpt task taskPath : String) (ws : List (String × String)) :
    ∀ (i : Nat) (tbl : List WriteRow) (k : WriteKey),
      rowsHaveKey tbl k = true →
      rowsHaveKey (putWritesAux idxMap thread ns ckpt task taskPath i ws tbl) k
        = true := by
  induction ws with
  | nil => intro i tbl k h; exact h
  | cons w rest ih =>
      intro i tbl k h
      obtain ⟨channel, value⟩ := w
      rw [putWritesAux]
      exact ih (i + 1) _ k
        (putWriteStep_mono idxMap thread ns ckpt task taskPath i channel value tbl k h)

/-- The `put_writes` loop never changes a row stored under a non-negative
key that existed before the call. -/
theorem putWritesAux_preserves_lookup (idxMap : String → Option Int)
    (thread ns ckpt task taskPath : String) (ws : List (String × String)) :
    ∀ (i : Nat) (tbl : List WriteRow) (k : WriteKey),
      0 ≤ k.write_idx → rowsHaveKey tbl k = true →
      lookupWrite (putWritesAux idxMap thread ns ckpt task taskPath i ws tbl) k
        = lookupWrite tbl k := by
  induction ws with
  | nil => intro i tbl k h0 hp; rfl
  | cons w rest ih =>
      intro i tbl k h0 hp
      obtain ⟨channel, value⟩ := w
      rw [putWritesAux]
      rw [ih (i + 1) _ k h0
            (putWriteStep_mono idxMap thread ns ckpt task taskPath i channel value tbl k hp)]
      exact putWriteStep_preserves_lookup idxMap thread ns ckpt task taskPath
        i channel value tbl k h0 hp

/-- Running the `put_writes` loop twice over the same batch equals running
it once, when every computed index of the batch is non-negative. -/
theorem putWritesAux_idem (idxMap : String → Option Int)
    (thread ns ckpt task taskPath : String) (ws : List (String × String)) :
    ∀ (i : Nat) (tbl : List WriteRow),
      allIdxNonneg idxMap i ws = true →
      putWritesAux idxMap thread ns ckpt task taskPath i ws
          (putWritesAux idxMap thread ns ckpt task taskPath i ws tbl)
        = putWritesAux idxMap thread ns ckpt task taskPath i ws tbl := by
  induction ws with
  | nil => intro i tbl h; rfl
  | cons w rest ih =>
      intro i tbl h
      obtain ⟨channel, value⟩ := w
      rw [allIdxNonneg, Bool.and_eq_true, decide_eq_true_eq] at h
      obtain ⟨h1, h2⟩ := h
      rw [putWritesAux, putWritesAux]
      have hpresent : rowsHaveKey
          (putWritesAux idxMap thread ns ckpt task taskPath (i + 1) rest
            (putWriteStep idxMap thread ns ckpt task taskPath i channel value tbl))
          { thread_id := thread, checkpoint_ns := ns, checkpoint_id := ckpt,
            task_id := task, write_idx := (idxMap channel).getD (Int.ofNat i) }
          = true :=
        putWritesAux_mono idxMap thread ns ckpt task taskPath rest (i + 1) _ _
          (putWriteStep_key_present idxMap thread ns ckpt task taskPath
            i channel value tbl)
      rw [putWriteStep_skips_present idxMap thread ns ckpt task taskPath
            i channel value _ h1 hpresent]
      exact ih (i + 1) _ h2

/-- Claim C8: a write whose composite key (thread, namespace, checkpoint,
task, write index) already exists with a non-negative write index is
discarded, leaving the stored row — its channel and value — unchanged; hence
repeating the same `put_writes` call is idempotent whenever every computed
write index of the batch is non-negative. -/
theorem put_writes_discards_existing_nonneg (idxMap : String → Option Int)
    (thread ns ckpt task taskPath : String) (ws : List (String × String))
    (tbl : List WriteRow) :
    (∀ k : WriteKey, 0 ≤ k.write_idx → rowsHaveKey tbl k = true →
        lookupWrite (put_writes idxMap thread ns ckpt task taskPath ws tbl) k
          = lookupWrite tbl k)
  ∧ (allIdxNonneg idxMap 0 ws = true →
        put_writes idxMap thread ns ckpt task taskPath ws
            (put_writes idxMap thread ns ckpt task taskPath ws tbl)
          = put_writes idxMap thread ns ckpt task taskPath ws tbl) := by
  constructor
  · intro k h0 hp
    exact putWritesAux_preserves_lookup idxMap thread ns ckpt task taskPath ws 0 tbl k h0 hp
  · intro h
    exact putWritesAux_idem idxMap thread ns ckpt task taskPath ws 0 tbl h

/-- Claim C8 witness: the theorem applied at a concrete table holding a row
under the colliding key and a one-write batch, every hypothesis discharged by
evaluation. -/
theorem put_writes_discards_existing_nonneg_witness :
    lookupWrite (put_writes idxMap0 "t" "" "c" "task" "" wsBatch0 [writeRow0]) writeKey0
      = lookupWrite [writeRow0] writeKey0
  ∧ put_writes idxMap0 "t" "" "c" "task" "" wsBatch0
        (put_writes idxMap0 "t" "" "c" "task" "" wsBatch0 [writeRow0])
      = put_writes idxMap0 "t" "" "c" "task" "" wsBatch0 [writeRow0] :=
  ⟨(put_writes_discards_existing_nonneg idxMap0 "t" "" "c" "task" "" wsBatch0
      [writeRow0]).1 writeKey0 (by decide) (by decide),
   (put_writes_discards_existing_nonneg idxMap0 "t" "" "c" "task" "" wsBatch0
      [writeRow0]).2 (by decide)⟩
